import Mathlib

/-!
Verification of the sidecar backend supervisor of `ai-mentor`
(`src/app/frontend/src-tauri/src/lib.rs`), as a shallow embedding.

The supervisor owns a shared record `BackendStateInner` (status string,
optional child-process handle, optional not-ready reason) and runs an
autostart flow: probe health, check port occupancy, spawn the backend,
poll health until ready or a 10 s deadline.  External effects (HTTP
requests, spawning, the clock) are supplied by an environment record so
every function is a pure state transformer; each run also produces a
trace of observable events (probe, port check, spawn attempt, kill,
poll request).
-/

namespace AiMentor

/-- Substring containment on strings, the semantics of Rust
`str::contains` with a string pattern. -/
def containsSubstr (s pat : String) : Bool :=
  decide (pat.toList <:+: s.toList)

/-- Model of `HEALTH_POLL_MS` from lib.rs: sleep between health polls. -/
def HEALTH_POLL_MS : Nat := 250

/-- Model of `HEALTH_TIMEOUT_MS` from lib.rs: total polling window. -/
def HEALTH_TIMEOUT_MS : Nat := 10000

/-- Model of `NOT_READY_REASON_PORT_IN_USE` from lib.rs. -/
def NOT_READY_REASON_PORT_IN_USE : String := "PORT_IN_USE_NO_HEALTH"

/-- Outcome of the single HTTP request made by `probe_health_ok`:
client-builder failure, send failure (network error or timeout), or a
response carrying a success/non-success status and a body that may fail
to read. -/
inductive HttpOutcome where
  | builderErr : HttpOutcome
  | sendErr : HttpOutcome
  | resp (statusSuccess : Bool) (body : Option String) : HttpOutcome
  deriving Repr, DecidableEq

/-- Model of `probe_health_ok` from lib.rs: true only for a success status whose
body matches one of the three substring patterns. -/
def probe_health_ok (o : HttpOutcome) : Bool :=
  match o with
  | HttpOutcome.builderErr => false
  | HttpOutcome.sendErr => false
  | HttpOutcome.resp statusSuccess body =>
    if statusSuccess = false then false
    else
      match body with
      | none => false
      | some b =>
        containsSubstr b "\"status\":\"ok\"" ||
          containsSubstr b "\"status\": \"ok\"" ||
          containsSubstr b "ok"

/-- Model of `autostart_enabled` from lib.rs, with the compile-time configuration
(`target_os = "windows"`, `debug_assertions`) and the environment
variable lookup made explicit parameters. -/
def autostart_enabled (isWindows debugAssertions : Bool)
    (envFlag : Option String) : Bool :=
  if isWindows = false then false
  else if debugAssertions then false
  else
    match envFlag with
    | some v => v != "0"
    | none => true

/-- The autostart gate as the specification words it: production (non
debug) build and the opt-out flag not set to "0".  Kept separate from
`autostart_enabled` so the two can be compared. -/
def autostartGateSpec (debugAssertions : Bool) (envFlag : Option String) : Prop :=
  debugAssertions = false ∧ envFlag ≠ some "0"

/-! ## Single-instance lock -/

/-- Metadata of a pre-existing lock file as `try_single_instance`
observes it: whether the path is a regular file, whether
`metadata.modified()` succeeded, and the modification time in
milliseconds. -/
structure LockInfo where
  isFile : Bool
  modifiedOk : Bool
  modifiedMs : Nat
  deriving Repr, DecidableEq

/-- Environment of one `try_single_instance` call: current time, the
existing lock file (none when `fs::metadata` fails, i.e. no file), the
current process id, and whether `fs::write` would succeed. -/
structure LockEnv where
  nowMs : Nat
  existing : Option LockInfo
  pid : Nat
  writeOk : Bool
  deriving Repr, DecidableEq

/-- Result of `try_single_instance`: success, the `AlreadyRunning`
error, or a propagated `fs::write` error. -/
inductive LockOutcome where
  | ok : LockOutcome
  | alreadyRunning : LockOutcome
  | writeErr : LockOutcome
  deriving Repr, DecidableEq

/-- The age computation of `try_single_instance`:
`SystemTime::now().duration_since(modified).unwrap_or(999 s)` — a
modification time in the future makes `duration_since` fail and the age
falls back to 999 seconds. -/
def lockAgeMs (nowMs modifiedMs : Nat) : Nat :=
  if modifiedMs ≤ nowMs then nowMs - modifiedMs else 999000

/-- Model of `try_single_instance` from lib.rs.  Second component: the content
(process id) written to the lock file, `none` when the file is left
unchanged. -/
def try_single_instance (env : LockEnv) : LockOutcome × Option Nat :=
  match env.existing with
  | some info =>
    if info.isFile = true ∧ info.modifiedOk = true ∧
        lockAgeMs env.nowMs info.modifiedMs < 60000 then
      (LockOutcome.alreadyRunning, none)
    else if env.writeOk then (LockOutcome.ok, some env.pid)
    else (LockOutcome.writeErr, none)
  | none =>
    if env.writeOk then (LockOutcome.ok, some env.pid)
    else (LockOutcome.writeErr, none)

/-! ## Backend supervisor state -/

/-- Model of `BackendStateInner` from lib.rs.  The child handle is modelled by
its process id. -/
structure BackendStateInner where
  status : String
  child : Option Nat
  not_ready_reason : Option String
  deriving Repr, DecidableEq

/-- Model of `BackendState::default()` from lib.rs. -/
def backendStateDefault : BackendStateInner :=
  { status := "NOT_READY", child := none, not_ready_reason := none }

/-- Outcome of one request of the polling loop in
`try_spawn_and_health`: a send error, or a response with its status
classification and body.  (The loop reads only the status; the body is
kept so the loop criterion can be compared with the probe criterion.) -/
inductive ReqOutcome where
  | sendErr : ReqOutcome
  | resp (statusSuccess : Bool) (body : String) : ReqOutcome
  deriving Repr, DecidableEq

/-- The test the polling loop applies to a request outcome:
`res.status().is_success()` on a received response, false on a send
error.  The body is not consulted. -/
def pollSuccess : ReqOutcome → Bool
  | ReqOutcome.resp true _ => true
  | _ => false

/-- The full health-probe criterion applied to a poll response:
success status and a body matching one of the three probe substring
patterns. -/
def respHealthy : ReqOutcome → Bool
  | ReqOutcome.resp statusSuccess b =>
      statusSuccess &&
        (containsSubstr b "\"status\":\"ok\"" ||
          containsSubstr b "\"status\": \"ok\"" ||
          containsSubstr b "ok")
  | ReqOutcome.sendErr => false

/-- Observable events of a supervisor run. -/
inductive Event where
  | probe (result : Bool) : Event
  | portCheck (inUse : Bool) : Event
  | spawnTry (result : Option Nat) : Event
  | killChild (handle : Nat) : Event
  | killByName : Event
  | pollReq (i : Nat) (o : ReqOutcome) : Event
  deriving Repr, DecidableEq

/-- Environment of one flow run: the HTTP outcome seen by the probe, port
occupancy, whether the two child-log opens succeed, the spawn result
(`some pid` on success), the outcome and latency (ms) of each poll
request, and whether resource-path resolution succeeds. -/
structure FlowEnv where
  probeOutcome : HttpOutcome
  portInUse : Bool
  openStdoutOk : Bool
  openStderrOk : Bool
  spawnResult : Option Nat
  polls : Nat → ReqOutcome
  pollLatency : Nat → Nat
  resolveOk : Bool

/-- Time elapsed at the start of poll `i`: each earlier iteration spent
its request latency plus the 250 ms sleep. -/
def elapsedAt (lat : Nat → Nat) : Nat → Nat
  | 0 => 0
  | i + 1 => elapsedAt lat i + lat i + HEALTH_POLL_MS

/-- The `while SystemTime::now() < deadline` loop of
`try_spawn_and_health`: before each poll compare elapsed time with the
10 s window; a response with a success status sets `READY`; exhausting
the window sets `NOT_READY`, clears the reason and drops the child
handle (`g.child.take()`). -/
def pollLoop (env : FlowEnv) (s : BackendStateInner) (i elapsed : Nat) :
    BackendStateInner × List Event :=
  if _h : elapsed < HEALTH_TIMEOUT_MS then
    let o := env.polls i
    if pollSuccess o then
      ({ s with status := "READY", not_ready_reason := none },
        [Event.pollReq i o])
    else
      let r := pollLoop env s (i + 1) (elapsed + env.pollLatency i + HEALTH_POLL_MS)
      (r.1, Event.pollReq i o :: r.2)
  else
    ({ s with status := "NOT_READY", not_ready_reason := none, child := none }, [])
termination_by HEALTH_TIMEOUT_MS - elapsed
decreasing_by simp only [HEALTH_TIMEOUT_MS, HEALTH_POLL_MS] at *; omega

/-- Model of `try_spawn_and_health` from lib.rs: open the two child logs, spawn,
install the handle with status `STARTING`, then poll until healthy or
timeout. -/
def try_spawn_and_health (env : FlowEnv) (s : BackendStateInner) :
    BackendStateInner × List Event :=
  if env.openStdoutOk = false then
    ({ s with status := "NOT_READY", not_ready_reason := none }, [])
  else if env.openStderrOk = false then
    ({ s with status := "NOT_READY", not_ready_reason := none }, [])
  else
    match env.spawnResult with
    | none =>
      ({ s with status := "NOT_READY", not_ready_reason := none },
        [Event.spawnTry none])
    | some pid =>
      let s1 := { s with status := "STARTING", not_ready_reason := none,
                         child := some pid }
      let r := pollLoop env s1 0 0
      (r.1, Event.spawnTry (some pid) :: r.2)

/-- Model of `run_autostart_flow` from lib.rs: probe; if healthy set `READY` and
stop; else if the port is in use set `NOT_READY` with reason
`PORT_IN_USE_NO_HEALTH` and stop; else spawn and poll. -/
def run_autostart_flow (env : FlowEnv) (s : BackendStateInner) :
    BackendStateInner × List Event :=
  if probe_health_ok env.probeOutcome then
    ({ s with status := "READY", not_ready_reason := none },
      [Event.probe true])
  else if env.portInUse then
    ({ s with status := "NOT_READY",
              not_ready_reason := some NOT_READY_REASON_PORT_IN_USE },
      [Event.probe false, Event.portCheck true])
  else
    let r := try_spawn_and_health env s
    (r.1, Event.probe false :: Event.portCheck false :: r.2)

/-! ## Command surface -/

/-- Model of `is_backend_ready` from lib.rs. -/
def is_backend_ready (s : BackendStateInner) : Bool :=
  s.status == "READY"

/-- Model of `get_backend_status` from lib.rs. -/
def get_backend_status (s : BackendStateInner) : String :=
  if s.status == "NOT_READY" then
    match s.not_ready_reason with
    | some r => "NOT_READY:" ++ r
    | none => s.status
  else s.status

/-- The kill of a held child handle (`if let Some(mut child) =
g.child.take() { child.kill() }`), as events. -/
def killEvents : Option Nat → List Event
  | some h => [Event.killChild h]
  | none => []

/-- The state reset shared by retry and kill-and-retry: child taken,
status `NOT_READY`, reason cleared. -/
def resetState (s : BackendStateInner) : BackendStateInner :=
  { s with status := "NOT_READY", not_ready_reason := none, child := none }

/-- Model of `retry_backend_start` from lib.rs: resolve the backend executable
path (failure returns the error with the state untouched), kill any
held child, reset status/reason, then run `try_spawn_and_health`. -/
def retry_backend_start (env : FlowEnv) (s : BackendStateInner) :
    Except String Unit × BackendStateInner × List Event :=
  if env.resolveOk = false then (Except.error "resolve failed", s, [])
  else
    let r := try_spawn_and_health env (resetState s)
    (Except.ok (), r.1, killEvents s.child ++ r.2)

/-- Model of `kill_backend_and_retry` from lib.rs: system-wide `taskkill` by
executable name, kill any held child, reset status/reason, then resolve
the path (failure leaves the state already reset) and run the full
autostart flow. -/
def kill_backend_and_retry (env : FlowEnv) (s : BackendStateInner) :
    Except String Unit × BackendStateInner × List Event :=
  let ks := Event.killByName :: killEvents s.child
  let s1 := resetState s
  if env.resolveOk = false then (Except.error "resolve failed", s1, ks)
  else
    let r := run_autostart_flow env s1
    (Except.ok (), r.1, ks ++ r.2)

/-- The state invariant of the shared record: a not-ready reason is
only ever present while the status is `NOT_READY`. -/
def statusInv (s : BackendStateInner) : Prop :=
  s.not_ready_reason.isSome = true → s.status = "NOT_READY"

/-! ## Concrete environments used to instantiate the theorems -/

/-- Environment refuting C1: the spawn succeeds and the first poll gets
a success-status response whose body has no "ok" marker. -/
def c1CounterEnv : FlowEnv :=
  { probeOutcome := HttpOutcome.sendErr, portInUse := false,
    openStdoutOk := true, openStderrOk := true, spawnResult := some 5,
    polls := fun _ => ReqOutcome.resp true "no marker",
    pollLatency := fun _ => 0, resolveOk := true }

/-- Environment witnessing C1: first poll response is healthy. -/
def c1WitnessEnv : FlowEnv :=
  { probeOutcome := HttpOutcome.sendErr, portInUse := false,
    openStdoutOk := true, openStderrOk := true, spawnResult := some 9,
    polls := fun _ => ReqOutcome.resp true "\"status\":\"ok\"",
    pollLatency := fun _ => 0, resolveOk := true }

/-- Lock environment refuting C4: the modification time of the lock file lies
1 s in the future of `now`. -/
def c4CounterEnv : LockEnv :=
  { nowMs := 1000,
    existing := some { isFile := true, modifiedOk := true, modifiedMs := 2000 },
    pid := 42, writeOk := true }

/-- Lock environment witnessing C4: no lock file exists. -/
def c4WitnessEnv : LockEnv :=
  { nowMs := 0, existing := none, pid := 7, writeOk := true }

/-- Environment witnessing C5: probe fails, port occupied. -/
def c5Env : FlowEnv :=
  { probeOutcome := HttpOutcome.sendErr, portInUse := true,
    openStdoutOk := true, openStderrOk := true, spawnResult := none,
    polls := fun _ => ReqOutcome.sendErr,
    pollLatency := fun _ => 0, resolveOk := true }

/-- Environment witnessing C6: resolution succeeds, spawn fails. -/
def c6Env : FlowEnv :=
  { probeOutcome := HttpOutcome.sendErr, portInUse := false,
    openStdoutOk := true, openStderrOk := true, spawnResult := none,
    polls := fun _ => ReqOutcome.sendErr,
    pollLatency := fun _ => 0, resolveOk := true }

/-- A state holding a child handle, for the C6 witness. -/
def c6State : BackendStateInner :=
  { status := "READY", child := some 3, not_ready_reason := none }

/-- Environment witnessing C7: the initial probe sees a healthy
response. -/
def c7Env : FlowEnv :=
  { probeOutcome := HttpOutcome.resp true (some "\"status\":\"ok\""),
    portInUse := false, openStdoutOk := true, openStderrOk := true,
    spawnResult := some 2, polls := fun _ => ReqOutcome.sendErr,
    pollLatency := fun _ => 0, resolveOk := true }

/-- Environment refuting C8 as stated: the spawn succeeds and every poll
returns a success-status response whose body fails the health-probe
criterion. -/
def c8CounterEnv : FlowEnv :=
  { probeOutcome := HttpOutcome.sendErr, portInUse := false,
    openStdoutOk := true, openStderrOk := true, spawnResult := some 6,
    polls := fun _ => ReqOutcome.resp true "no marker",
    pollLatency := fun _ => 0, resolveOk := true }

/-- Environment witnessing C8: spawn succeeds, every poll errs, and one
slow poll exhausts the 10 s window. -/
def c8Env : FlowEnv :=
  { probeOutcome := HttpOutcome.sendErr, portInUse := false,
    openStdoutOk := true, openStderrOk := true, spawnResult := some 4,
    polls := fun _ => ReqOutcome.sendErr,
    pollLatency := fun _ => 9750, resolveOk := true }

/-- Environment witnessing C9. -/
def c9Env : FlowEnv :=
  { probeOutcome := HttpOutcome.sendErr, portInUse := true,
    openStdoutOk := true, openStderrOk := true, spawnResult := none,
    polls := fun _ => ReqOutcome.sendErr,
    pollLatency := fun _ => 0, resolveOk := false }

/-! ## Helper lemmas -/

theorem containsSubstr_trans {b p q : String} (h1 : containsSubstr b p = true)
    (h2 : containsSubstr p q = true) : containsSubstr b q = true := by
  simp only [containsSubstr, decide_eq_true_eq] at h1 h2 ⊢
  exact h2.trans h1

theorem elapsedAt_mono (lat : Nat → Nat) {i k : Nat} (h : i ≤ k) :
    elapsedAt lat i ≤ elapsedAt lat k := by
  induction h with
  | refl => exact Nat.le_refl _
  | step _ ih =>
    simp only [elapsedAt]
    omega

theorem pollLoop_final (env : FlowEnv) :
    ∀ (n i elapsed : Nat) (s : BackendStateInner),
      HEALTH_TIMEOUT_MS - elapsed ≤ n →
      (pollLoop env s i elapsed).1 =
          { s with status := "READY", not_ready_reason := none } ∨
      (pollLoop env s i elapsed).1 =
          { s with status := "NOT_READY", not_ready_reason := none,
                   child := none } := by
  intro n
  induction n with
  | zero =>
    intro i elapsed s hn
    have hge : ¬ elapsed < HEALTH_TIMEOUT_MS := by omega
    rw [pollLoop]
    simp [hge]
  | succ n ih =>
    intro i elapsed s hn
    rw [pollLoop]
    by_cases hlt : elapsed < HEALTH_TIMEOUT_MS
    · by_cases hs : pollSuccess (env.polls i) = true
      · simp [hlt, hs]
      · simp only [hlt, dite_true, eq_false hs, if_false]
        exact ih (i + 1) (elapsed + env.pollLatency i + HEALTH_POLL_MS) s
          (by have hp : HEALTH_POLL_MS = 250 := rfl; omega)
    · simp [hlt]

theorem pollLoop_ready_iff (env : FlowEnv) :
    ∀ (n i elapsed : Nat) (s : BackendStateInner),
      elapsed = elapsedAt env.pollLatency i →
      HEALTH_TIMEOUT_MS - elapsed ≤ n →
      ((pollLoop env s i elapsed).1.status = "READY" ↔
        ∃ k, i ≤ k ∧ elapsedAt env.pollLatency k < HEALTH_TIMEOUT_MS ∧
          pollSuccess (env.polls k) = true) := by
  intro n
  induction n with
  | zero =>
    intro i elapsed s heq hn
    subst heq
    have hge : ¬ elapsedAt env.pollLatency i < HEALTH_TIMEOUT_MS := by omega
    rw [pollLoop]
    simp only [hge, dite_false]
    constructor
    · intro h
      exact absurd h (by decide)
    · rintro ⟨k, hik, hk, _⟩
      exact absurd hk (by have := elapsedAt_mono env.pollLatency hik; omega)
  | succ n ih =>
    intro i elapsed s heq hn
    subst heq
    rw [pollLoop]
    by_cases hlt : elapsedAt env.pollLatency i < HEALTH_TIMEOUT_MS
    · by_cases hs : pollSuccess (env.polls i) = true
      · simp [hlt, hs]
        exact ⟨i, Nat.le_refl i, hlt, hs⟩
      · have heq1 : elapsedAt env.pollLatency i + env.pollLatency i + HEALTH_POLL_MS
            = elapsedAt env.pollLatency (i + 1) := rfl
        simp only [hlt, dite_true, eq_false hs, if_false]
        rw [ih (i + 1) _ s heq1
          (by
            have hp : elapsedAt env.pollLatency (i + 1)
                = elapsedAt env.pollLatency i + env.pollLatency i + 250 := rfl
            omega)]
        constructor
        · rintro ⟨k, hk, h1, h2⟩
          exact ⟨k, by omega, h1, h2⟩
        · rintro ⟨k, hk, h1, h2⟩
          rcases Nat.eq_or_lt_of_le hk with hki | hk2
          · exact absurd (hki ▸ h2) hs
          · exact ⟨k, hk2, h1, h2⟩
    · rw [pollLoop]
      simp only [hlt, dite_false]
      constructor
      · intro h
        exact absurd h (by decide)
      · rintro ⟨k, hik, hk, _⟩
        exact absurd hk (by have := elapsedAt_mono env.pollLatency hik; omega)

theorem pollLoop_events (env : FlowEnv) :
    ∀ (n i elapsed : Nat) (s : BackendStateInner),
      HEALTH_TIMEOUT_MS - elapsed ≤ n →
      ∀ e ∈ (pollLoop env s i elapsed).2, ∃ k o, e = Event.pollReq k o := by
  intro n
  induction n with
  | zero =>
    intro i elapsed s hn e he
    have hge : ¬ elapsed < HEALTH_TIMEOUT_MS := by omega
    rw [pollLoop] at he
    simp [hge] at he
  | succ n ih =>
    intro i elapsed s hn e he
    rw [pollLoop] at he
    by_cases hlt : elapsed < HEALTH_TIMEOUT_MS
    · by_cases hs : pollSuccess (env.polls i) = true
      · simp [hlt, hs] at he
        exact ⟨i, env.polls i, he⟩
      · simp only [hlt, dite_true, eq_false hs, if_false, List.mem_cons] at he
        rcases he with he | he
        · exact ⟨i, env.polls i, he⟩
        · exact ih (i + 1) (elapsed + env.pollLatency i + HEALTH_POLL_MS) s
            (by have hp : HEALTH_POLL_MS = 250 := rfl; omega) e he
    · simp [hlt] at he

theorem try_spawn_events (env : FlowEnv) (s : BackendStateInner) :
    ∀ e ∈ (try_spawn_and_health env s).2,
      (∃ r, e = Event.spawnTry r) ∨ ∃ k o, e = Event.pollReq k o := by
  intro e he
  unfold try_spawn_and_health at he
  by_cases h1 : env.openStdoutOk = false
  · simp [h1] at he
  · by_cases h2 : env.openStderrOk = false
    · simp [h1, h2] at he
    · cases h3 : env.spawnResult with
      | none =>
        simp [h1, h2, h3] at he
        exact Or.inl ⟨none, he⟩
      | some pid =>
        simp only [h1, h2, h3, if_false] at he
        rcases List.mem_cons.mp he with rfl | he2
        · exact Or.inl ⟨some pid, rfl⟩
        · exact Or.inr (pollLoop_events env HEALTH_TIMEOUT_MS 0 0 _
            (by omega) e he2)

theorem notReady_colon_ne_ready (r : String) : "NOT_READY:" ++ r ≠ "READY" := by
  intro h
  have hl := congrArg String.length h
  rw [String.length_append] at hl
  have h1 : ("NOT_READY:" : String).length = 10 := by decide
  have h2 : ("READY" : String).length = 5 := by decide
  omega

theorem try_spawn_inv (env : FlowEnv) (s : BackendStateInner) :
    statusInv (try_spawn_and_health env s).1 := by
  unfold try_spawn_and_health
  by_cases h1 : env.openStdoutOk = false
  · simp [h1, statusInv]
  · by_cases h2 : env.openStderrOk = false
    · simp [h1, h2, statusInv]
    · cases h3 : env.spawnResult with
      | none => simp [h1, h2, h3, statusInv]
      | some pid =>
        simp only [h1, h2, h3, if_false]
        rcases pollLoop_final env HEALTH_TIMEOUT_MS 0 0
            { s with status := "STARTING", not_ready_reason := none,
                     child := some pid } (by omega) with hc | hc
        · rw [hc]
          intro hs
          simp at hs
        · rw [hc]
          intro hs
          simp at hs

theorem flow_inv (env : FlowEnv) (s : BackendStateInner) :
    statusInv (run_autostart_flow env s).1 := by
  unfold run_autostart_flow
  by_cases hp : probe_health_ok env.probeOutcome
  · simp [hp]
    intro hs
    simp at hs
  · by_cases hport : env.portInUse
    · simp [hp, hport]
      intro _
      rfl
    · simp [hp, hport]
      exact try_spawn_inv env s

/-! ## Claims -/

/-- Claim C1 is false as stated: in `c1CounterEnv` the spawn succeeds and
the first poll returns a success-status response whose body contains no
"ok" marker (so the health-probe criterion rejects it), yet the loop
transitions to `READY` — the polling loop checks only
`res.status().is_success()` and never reads the body. -/
theorem C1_counterexample :
    c1CounterEnv.polls 0 = ReqOutcome.resp true "no marker" ∧
    respHealthy (ReqOutcome.resp true "no marker") = false ∧
    (try_spawn_and_health c1CounterEnv backendStateDefault).1.status = "READY" := by
  refine ⟨rfl, by decide, ?_⟩
  have hunfold : (try_spawn_and_health c1CounterEnv backendStateDefault).1
      = (pollLoop c1CounterEnv
          { status := "STARTING", child := some 5, not_ready_reason := none }
          0 0).1 := rfl
  rw [hunfold, pollLoop]
  simp [HEALTH_TIMEOUT_MS, pollSuccess, c1CounterEnv]

/-- Claim C1 (amended): while `STARTING` after a successful spawn, the
supervisor polls every 250 ms and ends with status `READY` exactly when
some poll inside the 10 s window observes a response with a success
status code; the body of the poll response is never inspected, so the
criterion is weaker than the health-probe criterion. -/
theorem C1_starting_ready_iff (env : FlowEnv) (s : BackendStateInner) (pid : Nat)
    (h1 : env.openStdoutOk = true) (h2 : env.openStderrOk = true)
    (h3 : env.spawnResult = some pid) :
    (try_spawn_and_health env s).1.status = "READY" ↔
      ∃ k, elapsedAt env.pollLatency k < HEALTH_TIMEOUT_MS ∧
        pollSuccess (env.polls k) = true := by
  have hstep : try_spawn_and_health env s
      = ((pollLoop env
            { s with status := "STARTING", not_ready_reason := none,
                     child := some pid } 0 0).1,
          Event.spawnTry (some pid) ::
            (pollLoop env
              { s with status := "STARTING", not_ready_reason := none,
                       child := some pid } 0 0).2) := by
    unfold try_spawn_and_health
    rw [h3]
    simp [h1, h2]
  rw [hstep]
  rw [pollLoop_ready_iff env HEALTH_TIMEOUT_MS 0 0 _ rfl (by omega)]
  constructor
  · rintro ⟨k, _, hk, hs⟩
    exact ⟨k, hk, hs⟩
  · rintro ⟨k, hk, hs⟩
    exact ⟨k, Nat.zero_le k, hk, hs⟩

/-- Witness for C1: with a healthy first poll the spawn-and-poll run
ends `READY`. -/
theorem C1_witness :
    (try_spawn_and_health c1WitnessEnv backendStateDefault).1.status = "READY" :=
  (C1_starting_ready_iff c1WitnessEnv backendStateDefault 9 rfl rfl rfl).mpr
    ⟨0, by decide, rfl⟩

/-- Claim C2: the health probe returns true iff the request produced a
response with a success status and a readable body containing the
substring "ok" (the two longer accepted encodings are themselves
instances of this loose match); every failure mode — builder error,
send error/timeout, non-success status, unreadable body — gives
false. -/
theorem C2_probe_health_ok_iff (o : HttpOutcome) :
    probe_health_ok o = true ↔
      ∃ b, o = HttpOutcome.resp true (some b) ∧ containsSubstr b "ok" = true := by
  cases o with
  | builderErr => simp [probe_health_ok]
  | sendErr => simp [probe_health_ok]
  | resp statusSuccess body =>
    cases statusSuccess with
    | false => simp [probe_health_ok]
    | true =>
      cases body with
      | none => simp [probe_health_ok]
      | some b =>
        constructor
        · intro h
          refine ⟨b, rfl, ?_⟩
          have h2 : (containsSubstr b "\"status\":\"ok\"" ||
              containsSubstr b "\"status\": \"ok\"" ||
              containsSubstr b "ok") = true := by
            simpa [probe_health_ok] using h
          cases h4 : containsSubstr b "\"status\":\"ok\"" with
          | true => exact containsSubstr_trans h4 (by decide)
          | false =>
            cases h5 : containsSubstr b "\"status\": \"ok\"" with
            | true => exact containsSubstr_trans h5 (by decide)
            | false =>
              rw [h4, h5] at h2
              simpa using h2
        · rintro ⟨b2, hb, hc⟩
          simp only [HttpOutcome.resp.injEq, Option.some.injEq, true_and] at hb
          subst hb
          simp [probe_health_ok, hc]

/-- Claim C3 is false as stated: on a non-Windows target with a release
(non-debug) build and the flag unset, the spec-side gate holds but
`autostart_enabled` is false — the code additionally requires
`target_os = "windows"`. -/
theorem C3_counterexample :
    autostartGateSpec false none ∧ autostart_enabled false false none = false := by
  constructor
  · exact ⟨rfl, by simp⟩
  · rfl

/-- Claim C3 (amended): the autostart gate holds iff the target OS is
Windows, the build is the release (non-debug) variant, and the opt-out
flag `AI_MENTOR_AUTOSTART_BACKEND` is not set to "0" (unset counts as
enabled). -/
theorem C3_autostart_enabled_iff (w d : Bool) (e : Option String) :
    autostart_enabled w d e = true ↔
      w = true ∧ d = false ∧ e ≠ some "0" := by
  cases w with
  | false => simp [autostart_enabled]
  | true =>
    cases d with
    | true => simp [autostart_enabled]
    | false =>
      cases e with
      | none => simp [autostart_enabled]
      | some v => simp [autostart_enabled, bne_iff_ne]

/-- Claim C4 is false as stated on a lock file whose modification time
lies in the future of `now`: its age "now minus mtime" is negative,
hence strictly below 60 s, yet `try_single_instance` succeeds and
overwrites the file, because the failed `duration_since` call is
replaced by a 999 s fallback that counts as stale. -/
theorem C4_counterexample :
    ((1000 : Int) - 2000 < 60000) ∧
    c4CounterEnv.nowMs = 1000 ∧
    c4CounterEnv.existing =
      some { isFile := true, modifiedOk := true, modifiedMs := 2000 } ∧
    try_single_instance c4CounterEnv ≠ (LockOutcome.alreadyRunning, none) := by
  refine ⟨by decide, rfl, rfl, by decide⟩

/-- Claim C4 (amended): assuming the lock write succeeds, acquisition
succeeds and writes the current process id whenever no lock file
exists, whenever the file age (now minus mtime) is at least 60 s, and
also whenever the mtime lies in the future (the failed age computation
falls back to 999 s, treated as stale); it fails with `AlreadyRunning`
and leaves the file unchanged exactly when the file mtime is at most
now and its age is strictly below 60 s. -/
theorem C4_lock_age_spec (env : LockEnv) (hw : env.writeOk = true) :
    (env.existing = none →
      try_single_instance env = (LockOutcome.ok, some env.pid)) ∧
    (∀ info, env.existing = some info → info.isFile = true →
      info.modifiedOk = true →
      ((info.modifiedMs ≤ env.nowMs → 60000 ≤ env.nowMs - info.modifiedMs →
          try_single_instance env = (LockOutcome.ok, some env.pid)) ∧
       (env.nowMs < info.modifiedMs →
          try_single_instance env = (LockOutcome.ok, some env.pid)) ∧
       (info.modifiedMs ≤ env.nowMs → env.nowMs - info.modifiedMs < 60000 →
          try_single_instance env = (LockOutcome.alreadyRunning, none)))) := by
  constructor
  · intro he
    simp [try_single_instance, he, hw]
  · intro info he hf hm
    refine ⟨?_, ?_, ?_⟩
    · intro hle hage
      have hnot : ¬ lockAgeMs env.nowMs info.modifiedMs < 60000 := by
        simp only [lockAgeMs, if_pos hle]
        omega
      simp [try_single_instance, he, hf, hm, hnot, hw]
    · intro hfut
      have hnot : ¬ lockAgeMs env.nowMs info.modifiedMs < 60000 := by
        simp only [lockAgeMs, if_neg (by omega : ¬ info.modifiedMs ≤ env.nowMs)]
        omega
      simp [try_single_instance, he, hf, hm, hnot, hw]
    · intro hle hage
      have hyes : lockAgeMs env.nowMs info.modifiedMs < 60000 := by
        simp only [lockAgeMs, if_pos hle]
        omega
      simp [try_single_instance, he, hf, hm, hyes]

/-- Witness for C4: with no pre-existing lock file, acquisition succeeds
and writes the process id. -/
theorem C4_witness :
    try_single_instance c4WitnessEnv = (LockOutcome.ok, some 7) :=
  (C4_lock_age_spec c4WitnessEnv rfl).1 rfl

/-- Claim C5: when the initial probe fails and the port is occupied, the
flow sets `NOT_READY` with reason `PORT_IN_USE_NO_HEALTH`, emits no
spawn attempt, leaves the child handle field untouched (none when it
started as none), and the status query then reports
"NOT_READY:PORT_IN_USE_NO_HEALTH". -/
theorem C5_port_in_use_flow (env : FlowEnv) (s : BackendStateInner)
    (hp : probe_health_ok env.probeOutcome = false)
    (hport : env.portInUse = true) (hchild : s.child = none) :
    run_autostart_flow env s =
      ({ s with status := "NOT_READY",
                not_ready_reason := some NOT_READY_REASON_PORT_IN_USE },
        [Event.probe false, Event.portCheck true]) ∧
    (run_autostart_flow env s).1.child = none ∧
    (∀ e ∈ (run_autostart_flow env s).2, ∀ r, e ≠ Event.spawnTry r) ∧
    get_backend_status (run_autostart_flow env s).1
      = "NOT_READY:PORT_IN_USE_NO_HEALTH" := by
  have hflow : run_autostart_flow env s =
      ({ s with status := "NOT_READY",
                not_ready_reason := some NOT_READY_REASON_PORT_IN_USE },
        [Event.probe false, Event.portCheck true]) := by
    unfold run_autostart_flow
    simp [hp, hport]
  refine ⟨hflow, ?_, ?_, ?_⟩
  · rw [hflow]
    exact hchild
  · rw [hflow]
    intro e he r
    simp at he
    rcases he with rfl | rfl
    · simp
    · simp
  · rw [hflow]
    rfl

/-- Witness for C5. -/
theorem C5_witness :
    get_backend_status (run_autostart_flow c5Env backendStateDefault).1
      = "NOT_READY:PORT_IN_USE_NO_HEALTH" :=
  (C5_port_in_use_flow c5Env backendStateDefault rfl rfl rfl).2.2.2

/-- Claim C6: provided the executable path resolves, the retry command
kills any currently-held child handle (the old child receives a kill
event), resets the state to `NOT_READY` with no reason and no child,
and then runs exactly the spawn-and-poll steps on that reset state; its
event trace contains no health-probe and no port-check event. -/
theorem C6_retry_fresh_spawn (env : FlowEnv) (s : BackendStateInner)
    (hr : env.resolveOk = true) :
    retry_backend_start env s =
      (Except.ok (), (try_spawn_and_health env (resetState s)).1,
        killEvents s.child ++ (try_spawn_and_health env (resetState s)).2) ∧
    (∀ h, s.child = some h →
      Event.killChild h ∈ (retry_backend_start env s).2.2) ∧
    (∀ e ∈ (retry_backend_start env s).2.2,
      (∀ b, e ≠ Event.probe b) ∧ (∀ b, e ≠ Event.portCheck b)) := by
  have hretry : retry_backend_start env s =
      (Except.ok (), (try_spawn_and_health env (resetState s)).1,
        killEvents s.child ++ (try_spawn_and_health env (resetState s)).2) := by
    unfold retry_backend_start
    simp [hr]
  refine ⟨hretry, ?_, ?_⟩
  · intro h hc
    rw [hretry]
    simp [killEvents, hc]
  · intro e he
    rw [hretry] at he
    simp only at he
    rcases List.mem_append.mp he with he2 | he2
    · cases hc : s.child with
      | none =>
        rw [hc] at he2
        simp [killEvents] at he2
      | some hdl =>
        rw [hc] at he2
        simp only [killEvents, List.mem_singleton] at he2
        subst he2
        constructor
        · intro b
          simp
        · intro b
          simp
    · rcases try_spawn_events env (resetState s) e he2 with ⟨r, rfl⟩ | ⟨k, o, rfl⟩
      · constructor
        · intro b
          simp
        · intro b
          simp
      · constructor
        · intro b
          simp
        · intro b
          simp

/-- Witness for C6: a held handle receives its kill event. -/
theorem C6_witness :
    Event.killChild 3 ∈ (retry_backend_start c6Env c6State).2.2 :=
  (C6_retry_fresh_spawn c6Env c6State rfl).2.1 3 rfl

/-- Claim C7: when the initial probe sees a healthy backend, the flow
sets `READY` directly, ends, emits no spawn attempt, and leaves the
child-handle field exactly as it was. -/
theorem C7_probe_ok_flow (env : FlowEnv) (s : BackendStateInner)
    (hp : probe_health_ok env.probeOutcome = true) :
    run_autostart_flow env s =
      ({ s with status := "READY", not_ready_reason := none },
        [Event.probe true]) ∧
    (run_autostart_flow env s).1.child = s.child ∧
    ∀ e ∈ (run_autostart_flow env s).2, ∀ r, e ≠ Event.spawnTry r := by
  have hflow : run_autostart_flow env s =
      ({ s with status := "READY", not_ready_reason := none },
        [Event.probe true]) := by
    unfold run_autostart_flow
    simp [hp]
  refine ⟨hflow, ?_, ?_⟩
  · rw [hflow]
  · rw [hflow]
    intro e he r
    simp only [List.mem_singleton] at he
    subst he
    simp

/-- Witness for C7: a healthy `200 "status":"ok"` probe response ends the
flow `READY` with the child field still empty. -/
theorem C7_witness :
    (run_autostart_flow c7Env backendStateDefault).1.child = none :=
  (C7_probe_ok_flow c7Env backendStateDefault (by decide)).2.1

/-- Claim C8 is false as stated when "observes health" means the
health-probe criterion of C1/C2: in `c8CounterEnv` every poll response
fails that criterion (success status, body without the "ok" marker), so
no poll observes health within the window, yet the run ends `READY`
with the child handle still installed — not `NOT_READY` with the handle
cleared. -/
theorem C8_counterexample :
    c8CounterEnv.polls = (fun _ => ReqOutcome.resp true "no marker") ∧
    respHealthy (ReqOutcome.resp true "no marker") = false ∧
    (try_spawn_and_health c8CounterEnv backendStateDefault).1.status = "READY" ∧
    (try_spawn_and_health c8CounterEnv backendStateDefault).1.child = some 6 := by
  have hres : (try_spawn_and_health c8CounterEnv backendStateDefault).1
      = { status := "READY", child := some 6, not_ready_reason := none } := by
    have hunfold : (try_spawn_and_health c8CounterEnv backendStateDefault).1
        = (pollLoop c8CounterEnv
            { status := "STARTING", child := some 6, not_ready_reason := none }
            0 0).1 := rfl
    rw [hunfold, pollLoop]
    simp [HEALTH_TIMEOUT_MS, pollSuccess, c8CounterEnv]
  refine ⟨rfl, by decide, ?_, ?_⟩
  · rw [hres]
  · rw [hres]

/-- Claim C8 (amended): after a successful spawn, if no poll inside the
10 s window observes a response with a success status code (the polling
loop criterion, which ignores the body — weaker than the health-probe
criterion, per the corrected C1), the final state is `NOT_READY` with
no reason and the child handle cleared, and the trace contains no kill
event — the spawned process is only detached, never killed, by the
timeout path. -/
theorem C8_timeout_detaches (env : FlowEnv) (s : BackendStateInner) (pid : Nat)
    (h1 : env.openStdoutOk = true) (h2 : env.openStderrOk = true)
    (h3 : env.spawnResult = some pid)
    (hnone : ∀ k, elapsedAt env.pollLatency k < HEALTH_TIMEOUT_MS →
      pollSuccess (env.polls k) = false) :
    (try_spawn_and_health env s).1 =
      { s with status := "NOT_READY", not_ready_reason := none,
               child := none } ∧
    ∀ e ∈ (try_spawn_and_health env s).2, ∀ h, e ≠ Event.killChild h := by
  have hstep : try_spawn_and_health env s
      = ((pollLoop env
            { s with status := "STARTING", not_ready_reason := none,
                     child := some pid } 0 0).1,
          Event.spawnTry (some pid) ::
            (pollLoop env
              { s with status := "STARTING", not_ready_reason := none,
                       child := some pid } 0 0).2) := by
    unfold try_spawn_and_health
    rw [h3]
    simp [h1, h2]
  constructor
  · rw [hstep]
    rcases pollLoop_final env HEALTH_TIMEOUT_MS 0 0
        { s with status := "STARTING", not_ready_reason := none,
                 child := some pid } (by omega) with hc | hc
    · exfalso
      have hready : (pollLoop env
          { s with status := "STARTING", not_ready_reason := none,
                   child := some pid } 0 0).1.status = "READY" := by
        rw [hc]
      have := (pollLoop_ready_iff env HEALTH_TIMEOUT_MS 0 0 _ rfl (by omega)).mp hready
      rcases this with ⟨k, _, hk, hs2⟩
      exact absurd hs2 (by simp [hnone k hk])
    · rw [hc]
  · rw [hstep]
    intro e he h
    rcases List.mem_cons.mp he with rfl | he2
    · simp
    · rcases pollLoop_events env HEALTH_TIMEOUT_MS 0 0 _ (by omega) e he2
        with ⟨k, o, rfl⟩
      simp

/-- Witness for C8: every poll errs and one slow poll exhausts the
window; the run ends `NOT_READY` with the handle cleared. -/
theorem C8_witness :
    (try_spawn_and_health c8Env backendStateDefault).1 =
      { status := "NOT_READY", child := none, not_ready_reason := none } :=
  (C8_timeout_detaches c8Env backendStateDefault 4 rfl rfl rfl
    (fun _ _ => rfl)).1

/-- Claim C9: the invariant "a not-ready reason is only present while
the status is NOT_READY" is preserved by every mutating operation:
the autostart flow, spawn-and-poll, retry and kill-and-retry. -/
theorem C9_reason_invariant (env : FlowEnv) (s : BackendStateInner)
    (h : statusInv s) :
    statusInv (run_autostart_flow env s).1 ∧
    statusInv (try_spawn_and_health env s).1 ∧
    statusInv (retry_backend_start env s).2.1 ∧
    statusInv (kill_backend_and_retry env s).2.1 := by
  refine ⟨flow_inv env s, try_spawn_inv env s, ?_, ?_⟩
  · unfold retry_backend_start
    by_cases hr : env.resolveOk = false
    · simp only [hr, if_true]
      exact h
    · simp only [hr, if_false]
      exact try_spawn_inv env (resetState s)
  · unfold kill_backend_and_retry
    by_cases hr : env.resolveOk = false
    · simp only [hr, if_true]
      intro hs
      simp [resetState] at hs
    · simp only [hr, if_false]
      exact flow_inv env (resetState s)

/-- Witness for C9. -/
theorem C9_witness :
    statusInv (run_autostart_flow c9Env backendStateDefault).1 ∧
    statusInv (try_spawn_and_health c9Env backendStateDefault).1 ∧
    statusInv (retry_backend_start c9Env backendStateDefault).2.1 ∧
    statusInv (kill_backend_and_retry c9Env backendStateDefault).2.1 :=
  C9_reason_invariant c9Env backendStateDefault (fun _ => rfl)

/-- Claim C10: the two status queries agree on every state of the shared
record: `is_backend_ready` is true exactly when `get_backend_status`
returns the string "READY". -/
theorem C10_ready_iff_status (s : BackendStateInner) :
    is_backend_ready s = true ↔ get_backend_status s = "READY" := by
  unfold is_backend_ready get_backend_status
  by_cases hs : s.status = "NOT_READY"
  · rw [hs]
    cases hr : s.not_ready_reason with
    | some r =>
      simp only [hr]
      constructor
      · intro hcontra
        exact absurd hcontra (by decide)
      · intro hcontra
        exact absurd hcontra (notReady_colon_ne_ready r)
    | none =>
      simp only [hr]
      constructor
      · intro hcontra
        exact absurd hcontra (by decide)
      · intro hcontra
        exact absurd hcontra (by simp)
  · have hb : (s.status == "NOT_READY") = false := by
      simp [hs]
    simp only [hb, if_false]
    simp [beq_iff_eq]

end AiMentor
